import Mathlib

/-!
# powclient: challenge / solve / submit

A shallow embedding of `pow_client.go` and of the retry harness `getToken`
of `pow_client_test.go`.

* Go strings that are only copied or compared (`RequestID`, `Token`, URLs)
  are Lean strings; raw response bodies are byte lists.
* `*big.Int` is `Int`.
* A Go function returning `(v, error)` returns a pair whose second component
  is `Option Error` (`none` is `nil`).
* The HTTP peer is an explicit state machine: its state is threaded through
  every operation, and every operation reports the events it performed
  (calls of `factors`, HTTP exchanges).
* Library code (`net/http`, `encoding/json`, `net/url`) and the routine
  `factors`, whose body is in another file, are fields of `Env`.
-/

set_option linter.dupNamespace false

namespace Powclient

/-! ## Data model -/

/-- Raw bytes of a body (`[]byte`, or a Go `string` holding a body). -/
abbrev Bytes := List Nat

/-- The `error` values the package can return.  `ErrTooManyRequests`,
`ErrEmptyToken`, `ErrInvalidChallenge` are the package variables of lines 16-23;
`wrapped inner arg` is `fmt.Errorf("%w: %q", inner, arg)`;
`new msg` is `errors.New(msg)`;
`HTTPStatusError` is `&HTTPStatusError{Code, Body}`;
`external` is an error produced by library code (transport, JSON, URL). -/
inductive Error where
  | ErrTooManyRequests
  | ErrEmptyToken
  | ErrInvalidChallenge
  | wrapped (inner : Error) (arg : String)
  | new (msg : String)
  | HTTPStatusError (Code : Int) (Body : Bytes)
  | external (msg : String)
  deriving DecidableEq

/-- The chain walk of `errors.Is(e, target)`: `e` itself or something it wraps. -/
def errorsIs : Error → Error → Bool
  | .wrapped inner arg, target =>
      decide (Error.wrapped inner arg = target) || errorsIs inner target
  | e, target => decide (e = target)

/-- The outcome of a library call that yields a value or an error. -/
inductive Res (α : Type) where
  | ok (v : α)
  | err (e : Error)
  deriving DecidableEq

structure Challenge where
  RequestID : String
  Challenge : String
  deriving DecidableEq

structure RequestResponse where
  Challenge : Challenge
  RequestTime : Int
  deriving DecidableEq

structure SubmitRequest where
  Challenge : Challenge
  Answer : List String
  RequestTime : Int
  deriving DecidableEq

structure SubmitResponse where
  Token : String
  deriving DecidableEq

structure GetTokenParams where
  TimeoutSec : Int
  BaseUrl : String
  RequestPath : String
  SubmitPath : String
  UserAgent : String
  SNI : String
  Host : String
  Proxy : Option String
  deriving DecidableEq

/-- The part of `tls.Config` the client sets. -/
structure TLSConfig where
  ServerName : String
  deriving DecidableEq

/-- The part of `http.Transport` the client sets: `Proxy = none` is the
environment proxy of the default transport. -/
structure Transport where
  Proxy : Option String
  TLSClientConfig : Option TLSConfig
  deriving DecidableEq

structure Client where
  Timeout : Int
  Transport : Transport
  deriving DecidableEq

structure ChallengeParams where
  BaseUrl : String
  RequestPath : String
  SubmitPath : String
  UserAgent : String
  Host : String
  Client : Client
  deriving DecidableEq

/-- An `http.Request` as far as the client touches it. -/
structure Request where
  Method : String
  URL : String
  Header : List (String × String)
  Host : String
  Body : Option Bytes
  deriving DecidableEq

/-- An `http.Response` as far as the client reads it. -/
structure Response where
  StatusCode : Int
  Body : Bytes
  deriving DecidableEq

/-- What an operation did, in order. -/
inductive Event where
  | factored (N : Int)
  | exchange (req : Request) (reply : Res Response)
  deriving DecidableEq

/-- The result of running an operation against the peer: the returned Go
values, the peer state afterwards, the events performed. -/
structure Run (σ α : Type) where
  ret : α
  net : σ
  events : List Event

/-- Code outside `pow_client.go` that the client calls, over a peer with
states `σ`. -/
structure Env (σ : Type) where
  /-- The call `http.NewRequest(method, url, body)`. -/
  newRequest : String → String → Option Bytes → Res Request
  /-- The method `(*http.Client).Do`: one round trip, which may change the peer. -/
  roundTrip : Client → σ → Request → Res Response × σ
  /-- The call `json.NewDecoder(body).Decode` into a `RequestResponse`. -/
  decodeRequestResponse : Bytes → Res RequestResponse
  /-- The call `json.NewDecoder(body).Decode` into a `SubmitResponse`. -/
  decodeSubmitResponse : Bytes → Res SubmitResponse
  /-- The call `json.Marshal(submitRequest)`. -/
  marshal : SubmitRequest → Res Bytes
  /-- The call `factors(N)` of line 184; the body of `factors` is in another file. -/
  factors : Int → List Int

/-! ## `math/big` -/

/-- The value of a decimal digit character. -/
def digitVal (c : Char) : Option Nat :=
  if '0' ≤ c ∧ c ≤ '9' then some (c.toNat - '0'.toNat) else none

/-- Reads a non-empty run of decimal digits that is the whole input. -/
def scanDigits : List Char → Option Nat → Option Nat
  | [], acc => acc
  | c :: cs, acc =>
      match digitVal c with
      | none => none
      | some d => scanDigits cs (some (acc.getD 0 * 10 + d))

/-- The call `new(big.Int).SetString(s, 10)`: an optional sign `+` or `-`, then one or
more decimal digits, and nothing else; `none` is `ok == false`. -/
def SetString (s : String) : Option Int :=
  match s.toList with
  | '-' :: cs => (scanDigits cs none).map (fun n => - (n : Int))
  | '+' :: cs => (scanDigits cs none).map (fun n => (n : Int))
  | cs => (scanDigits cs none).map (fun n => (n : Int))

/-- The method `(*big.Int).String()`: the base-10 text. -/
def bigString (x : Int) : String := toString x

/-! ## `pow_client.go` -/

def ErrTooManyRequests : Error := Error.ErrTooManyRequests
def ErrEmptyToken : Error := Error.ErrEmptyToken
def ErrInvalidChallenge : Error := Error.ErrInvalidChallenge

/-- The error of line 186. -/
def errNotTwoFactors : Error :=
  Error.new "factors function did not return exactly two factors"

/-- The call `io.ReadAll(io.LimitReader(r, n))` on a body whose bytes are `r`. -/
def readAllLimit (r : Bytes) (n : Int) : Bytes := r.take n.toNat

/-- The function `bodySnippet`, lines 37-43. -/
def bodySnippet (r : Bytes) (n : Int) : Bytes :=
  let n := if n ≤ 0 then 2048 else n
  readAllLimit r n

/-- The function `NewGetTokenParams`, lines 76-87 (`5 * time.Second` in nanoseconds). -/
def NewGetTokenParams : GetTokenParams :=
  { TimeoutSec := 5 * 1000000000
    BaseUrl := "http://127.0.0.1:55000"
    RequestPath := "/request_challenge"
    SubmitPath := "/submit_answer"
    UserAgent := "POW client"
    SNI := ""
    Host := ""
    Proxy := none }

/-- The call `req.Header.Add(key, value)`. -/
def headerAdd (req : Request) (key value : String) : Request :=
  { req with Header := req.Header ++ [(key, value)] }

/-- The call `req.Header.Set(key, value)`. -/
def headerSet (req : Request) (key value : String) : Request :=
  { req with Header := req.Header.filter (fun kv => kv.1 ≠ key) ++ [(key, value)] }

/-- The assignment of `req.Host` when `challengeParams.Host` is not empty,
lines 150-152 and 210-212. -/
def setHost (req : Request) (host : String) : Request :=
  if host ≠ "" then { req with Host := host } else req

/-- The function `requestChallenge` from the status check on, lines 159-173. -/
def challengeFromResponse {σ : Type} (env : Env σ) (resp : Response) :
    Option RequestResponse × Option Error :=
  if resp.StatusCode ≠ 200 then
    if resp.StatusCode = 429 then
      (none, some ErrTooManyRequests)
    else
      let snippet := bodySnippet resp.Body 2048
      (none, some (Error.HTTPStatusError resp.StatusCode snippet))
  else
    match env.decodeRequestResponse resp.Body with
    | .err e => (none, some e)
    | .ok challengeResponse => (some challengeResponse, none)

/-- The function `requestChallenge`, lines 143-174. -/
def requestChallenge {σ : Type} (env : Env σ) (challengeParams : ChallengeParams) (s : σ) :
    Run σ (Option RequestResponse × Option Error) :=
  match env.newRequest "GET" (challengeParams.BaseUrl ++ challengeParams.RequestPath) none with
  | .err e => ⟨(none, some e), s, []⟩
  | .ok req =>
    let req := headerAdd req "User-Agent" challengeParams.UserAgent
    let req := setHost req challengeParams.Host
    match env.roundTrip challengeParams.Client s req with
    | (.err e, s') => ⟨(none, some e), s', [Event.exchange req (.err e)]⟩
    | (.ok resp, s') => ⟨challengeFromResponse env resp, s', [Event.exchange req (.ok resp)]⟩

/-- The factor pair of `submitAnswer`, lines 184-192: the call of `factors`,
the length check and the swap. -/
def factorPair (factors : Int → List Int) (N : Int) : Option (Int × Int) × Option Error :=
  let factorsList := factors N
  if factorsList.length ≠ 2 then
    (none, some errNotTwoFactors)
  else
    let p1 := factorsList.getD 0 0
    let p2 := factorsList.getD 1 0
    if p1 > p2 then (some (p2, p1), none) else (some (p1, p2), none)

/-- The `SubmitRequest` of `submitAnswer`, lines 177-197. -/
def buildSubmitRequest {σ : Type} (env : Env σ) (challengeResponse : RequestResponse) :
    (Option SubmitRequest × Option Error) × List Event :=
  let requestTime := challengeResponse.RequestTime
  let challenge := challengeResponse.Challenge.Challenge
  let requestId := challengeResponse.Challenge.RequestID
  match SetString challenge with
  | none => ((none, some (Error.wrapped ErrInvalidChallenge challenge)), [])
  | some N =>
    match factorPair env.factors N with
    | (some (p1, p2), _) =>
      ((some { Challenge := { RequestID := requestId, Challenge := "" }
               Answer := [bigString p1, bigString p2]
               RequestTime := requestTime }, none), [Event.factored N])
    | (none, e) => ((none, e), [Event.factored N])

/-- The function `submitAnswer` from the status check on, lines 220-238. -/
def tokenFromResponse {σ : Type} (env : Env σ) (resp : Response) : String × Option Error :=
  if resp.StatusCode ≠ 200 then
    if resp.StatusCode = 429 then
      ("", some ErrTooManyRequests)
    else
      let snippet := bodySnippet resp.Body 2048
      ("", some (Error.HTTPStatusError resp.StatusCode snippet))
  else
    match env.decodeSubmitResponse resp.Body with
    | .err e => ("", some e)
    | .ok submitResponse =>
      if submitResponse.Token = "" then ("", some ErrEmptyToken)
      else (submitResponse.Token, none)

/-- The headers and host `submitAnswer` puts on the request `req` that
`http.NewRequest` returned, lines 207-212. -/
def outgoing (challengeParams : ChallengeParams) (req : Request) : Request :=
  let req := headerSet req "Content-Type" "application/json"
  let req := headerAdd req "User-Agent" challengeParams.UserAgent
  setHost req challengeParams.Host

/-- The function `submitAnswer`, lines 176-239. -/
def submitAnswer {σ : Type} (env : Env σ) (challengeParams : ChallengeParams)
    (challengeResponse : RequestResponse) (s : σ) : Run σ (String × Option Error) :=
  match buildSubmitRequest env challengeResponse with
  | ((none, e), evs) => ⟨("", e), s, evs⟩
  | ((some submitRequest, _), evs) =>
    match env.marshal submitRequest with
    | .err e => ⟨("", some e), s, evs⟩
    | .ok requestBody =>
      match env.newRequest "POST" (challengeParams.BaseUrl ++ challengeParams.SubmitPath)
          (some requestBody) with
      | .err e => ⟨("", some e), s, evs⟩
      | .ok req =>
        let req := outgoing challengeParams req
        match env.roundTrip challengeParams.Client s req with
        | (.err e, s') => ⟨("", some e), s', evs ++ [Event.exchange req (.err e)]⟩
        | (.ok resp, s') =>
          ⟨tokenFromResponse env resp, s', evs ++ [Event.exchange req (.ok resp)]⟩

/-- The value of `http.DefaultTransport.(*http.Transport).Clone()` as far as the client
sets it: proxy from the environment, no TLS configuration. -/
def defaultTransport : Transport := { Proxy := none, TLSClientConfig := none }

/-- The transport and client of `RetToken`, lines 100-118. -/
def buildClient (getTokenParams : GetTokenParams) : Client :=
  let tr := defaultTransport
  let tr := match getTokenParams.Proxy with
    | some p => { tr with Proxy := some p }
    | none => tr
  let tr :=
    if getTokenParams.SNI ≠ "" then
      let cfg := match tr.TLSClientConfig with
        | none => ({ ServerName := "" } : TLSConfig)
        | some c => c
      { tr with TLSClientConfig := some { cfg with ServerName := getTokenParams.SNI } }
    else tr
  { Timeout := getTokenParams.TimeoutSec, Transport := tr }

/-- The `ChallengeParams` of `RetToken`, lines 120-127. -/
def buildChallengeParams (getTokenParams : GetTokenParams) : ChallengeParams :=
  { BaseUrl := getTokenParams.BaseUrl
    RequestPath := getTokenParams.RequestPath
    SubmitPath := getTokenParams.SubmitPath
    UserAgent := getTokenParams.UserAgent
    Host := getTokenParams.Host
    Client := buildClient getTokenParams }

/-- The error standing for the nil dereference `RetToken` would run into if
`requestChallenge` returned `(nil, nil)`, which it never does. -/
def nilDereference : Error := Error.external "nil pointer dereference"

/-- The function `RetToken`, lines 98-141. -/
def RetToken {σ : Type} (env : Env σ) (getTokenParams : GetTokenParams) (s : σ) :
    Run σ (String × Option Error) :=
  let challengeParams := buildChallengeParams getTokenParams
  match requestChallenge env challengeParams s with
  | ⟨(_, some err), s1, evs⟩ => ⟨("", some err), s1, evs⟩
  | ⟨(none, none), s1, evs⟩ => ⟨("", some nilDereference), s1, evs⟩
  | ⟨(some challengeResponse, none), s1, evs⟩ =>
    match submitAnswer env challengeParams challengeResponse s1 with
    | ⟨(_, some err), s2, evs2⟩ => ⟨("", some err), s2, evs ++ evs2⟩
    | ⟨(token, none), s2, evs2⟩ => ⟨(token, none), s2, evs ++ evs2⟩

/-! ## The factorizer

The body of `factors` is not part of the sources at hand; the definitions of
this section follow section 4.1 of the specification. -/

/-- Modelled from the spec: the two failures of `factor` in section 4.1 (the
body of `factors` is missing). -/
inductive FactorError where
  | NotSemiprime
  | InvalidInput
  deriving DecidableEq

/-- Modelled from the spec: the trial division of section 4.1 (the body of
`factors` is missing): the first of `k, k + 1, ...` that divides `n`, trying
`fuel` candidates, and `n` itself when none of them does. -/
def trialDivision (n : Nat) : Nat → Nat → Nat
  | 0, _ => n
  | fuel + 1, k => if n % k = 0 then k else trialDivision n fuel (k + 1)

/-- Modelled from the spec: the divisor search of section 4.1 (the body of
`factors` is missing): the smallest divisor of `n` that is at least 2, for
`n ≥ 2`. -/
def smallestDivisor (n : Nat) : Nat := trialDivision n n 2

/-- Modelled from the spec: the primality check of section 4.1 (the body of
`factors` is missing), exact by trial division: `n ≥ 2` has no divisor between
2 and `n - 1`. -/
def isPrime (n : Nat) : Bool := decide (2 ≤ n) && decide (smallestDivisor n = n)

/-- Modelled from the spec: the factorizer `factor(N)` of section 4.1, whose
code (the body of `factors`) is missing.  It fails with `InvalidInput` if
`N ≤ 1`, fails with `NotSemiprime` if `N` does not decompose into exactly two
prime factors, and otherwise returns the pair in ascending order.  The search
for a non-trivial divisor is exhaustive trial division, a deterministic
stand-in for the trial division and randomized search of the specification;
both the divisor and the cofactor are checked to be prime. -/
def factor (N : Int) : Except FactorError (Int × Int) :=
  if N ≤ 1 then .error FactorError.InvalidInput
  else
    let n := N.toNat
    let d := smallestDivisor n
    if d = n then .error FactorError.NotSemiprime
    else
      let q := n / d
      if isPrime d && isPrime q then .ok ((min d q : Nat), (max d q : Nat))
      else .error FactorError.NotSemiprime

/-- Modelled from the spec: the routine `factors` called at line 184, whose
body is missing, as the list view of `factor`: the two factors, ascending,
when `factor` succeeds and the empty list when it fails. -/
def factors (N : Int) : List Int :=
  match factor N with
  | .ok (low, high) => [low, high]
  | .error _ => []

/-! ## `pow_client_test.go` -/

/-- How a call of `getToken` ends: it returns to its caller, or the process
ends in `os.Exit(code)`. -/
inductive Outcome where
  | returned (token : String) (err : Option Error)
  | exited (code : Int)
  deriving DecidableEq

/-- A line written by `fmt.Println`. -/
inductive Printed where
  | error (e : Error)
  | text (s : String)
  deriving DecidableEq

/-- A finished call of `getToken`: how it ended, what it wrote to standard
output, the state of the world afterwards. -/
structure GetTokenRun (ω : Type) where
  outcome : Outcome
  stdout : List Printed
  world : ω

/-- The parameters `getToken` builds, lines 18-24; `urlString scheme host path`
is `(&url.URL{Scheme, Host, Path}).String()`. -/
def getTokenParamsOf (urlString : String → String → String → String)
    (fastIp host port : String) : GetTokenParams :=
  let baseURL := "/v3/challenge"
  let getTokenParams := NewGetTokenParams
  let u := urlString "https" (fastIp ++ ":" ++ port) baseURL
  let getTokenParams := { getTokenParams with BaseUrl := u }
  let getTokenParams := { getTokenParams with SNI := host }
  let getTokenParams := { getTokenParams with Host := host }
  { getTokenParams with Proxy := none }

/-- The loop of `getToken`, lines 27-33, with `remaining = 3 - i` iterations
to go: `some token` when an iteration returned, `none` when the loop ran out.
The `err` assigned at line 28 is the loop body's own variable. -/
def getTokenLoop {ω : Type} (retToken : ω → (String × Option Error) × ω) :
    Nat → ω → Option String × ω
  | 0, w => (none, w)
  | remaining + 1, w =>
    match retToken w with
    | ((_, some _), w') => getTokenLoop retToken remaining w'
    | ((token, none), w') => (some token, w')

/-- The function `getToken`, lines 17-40, over any implementation of the call of `RetToken`
at line 28. -/
def getTokenWith {ω : Type} (retToken : GetTokenParams → ω → (String × Option Error) × ω)
    (urlString : String → String → String → String) (fastIp host port : String) (w : ω) :
    GetTokenRun ω :=
  let getTokenParams := getTokenParamsOf urlString fastIp host port
  let err : Option Error := none
  match getTokenLoop (retToken getTokenParams) 3 w with
  | (some token, w') => ⟨Outcome.returned token none, [], w'⟩
  | (none, w') =>
    let out : List Printed := match err with
      | some e => [Printed.error e]
      | none => []
    let out := out ++ [Printed.text "RetToken failed 3 times, exit"]
    ⟨Outcome.exited 1, out, w'⟩

/-- The call of `RetToken` at line 28 over the world of `getToken`. -/
def retTokenCall {σ : Type} (env : Env σ) :
    GetTokenParams → σ × List Event → (String × Option Error) × (σ × List Event) :=
  fun p w => let r := RetToken env p w.1; (r.ret, (r.net, w.2 ++ r.events))

/-- The function `getToken`, lines 17-40: the world is the peer state and the events so far. -/
def getToken {σ : Type} (env : Env σ) (urlString : String → String → String → String)
    (fastIp host port : String) (w : σ × List Event) : GetTokenRun (σ × List Event) :=
  getTokenWith (retTokenCall env) urlString fastIp host port w

/-! ## Counting the attempts -/

/-- The world before call number `j` (from 0) of a sequence of calls of `step`
that starts in `w`. -/
def stateBefore {ω α : Type} (step : ω → α × ω) : Nat → ω → ω
  | 0, w => w
  | j + 1, w => stateBefore step j (step w).2

/-- What call number `j` (from 0) of a sequence of calls of `step` that starts
in `w` returns. -/
def attempt {ω α : Type} (step : ω → α × ω) (w : ω) (j : Nat) : α :=
  (step (stateBefore step j w)).1

/-- The call `retToken` with a counter of the calls made next to the world. -/
def counted {ω : Type} (retToken : GetTokenParams → ω → (String × Option Error) × ω) :
    GetTokenParams → ω × Nat → (String × Option Error) × (ω × Nat) :=
  fun p w => let r := retToken p w.1; (r.1, (r.2, w.2 + 1))

/-! ## Mock peers -/

/-- A stub of `factors` for the mock runs: the prime factors of 15 (larger
first), of 7 and of 30, and no factor for any other value. -/
def mockFactors (N : Int) : List Int :=
  if N = 15 then [5, 3]
  else if N = 7 then [7]
  else if N = 30 then [2, 3, 5]
  else []

/-- A request as `http.NewRequest` returns it for a well-formed URL. -/
def mockNewRequest (method url : String) (body : Option Bytes) : Res Request :=
  .ok { Method := method, URL := url, Header := [], Host := "", Body := body }

/-- A peer that issues the challenge `challenge` with request id `r1` and answers
every submission with the token `token`; the state counts the requests served and
the first `throttled` requests are answered 429. -/
def mockEnv (challenge token : String) (throttled : Nat) (factors : Int → List Int) :
    Env Nat :=
  { newRequest := mockNewRequest
    roundTrip := fun _ n req =>
      if n < throttled then (.ok { StatusCode := 429, Body := [] }, n + 1)
      else if req.Method = "GET" then (.ok { StatusCode := 200, Body := [1] }, n + 1)
      else (.ok { StatusCode := 200, Body := [2] }, n + 1)
    decodeRequestResponse := fun _ =>
      .ok { Challenge := { RequestID := "r1", Challenge := challenge }, RequestTime := 7 }
    decodeSubmitResponse := fun _ => .ok { Token := token }
    marshal := fun _ => .ok [3]
    factors := factors }

/-- A peer that answers every request with status `code` and body `body`. -/
def mockStatusEnv (code : Int) (body : Bytes) (factors : Int → List Int) : Env Nat :=
  { mockEnv "15" "abc" 0 factors with
    roundTrip := fun _ n _ => (.ok { StatusCode := code, Body := body }, n + 1) }

/-- The text of a URL with the given scheme, host and path. -/
def mockUrlString (scheme host path : String) : String := scheme ++ "://" ++ host ++ path

/-- The challenge parameters the mock runs use. -/
def mockParams : ChallengeParams := buildChallengeParams NewGetTokenParams

/-- The issue of challenge `challenge` with request id `r1` at time 7. -/
def mockIssue (challenge : String) : RequestResponse :=
  { Challenge := { RequestID := "r1", Challenge := challenge }, RequestTime := 7 }

/-! ## The solve step -/

theorem factorPair_two (f : Int → List Int) (N a b : Int) (hf : f N = [a, b]) :
    factorPair f N = (some (min a b, max a b), none) := by
  simp only [factorPair, hf, List.length_cons, List.length_nil]
  by_cases hab : a > b
  · have h1 : min a b = b := min_eq_right (le_of_lt hab)
    have h2 : max a b = a := max_eq_left (le_of_lt hab)
    simp [hab, h1, h2]
  · have hle : a ≤ b := not_lt.mp hab
    simp [hab, min_eq_left hle, max_eq_right hle]

theorem factorPair_not_two (f : Int → List Int) (N : Int) (hf : (f N).length ≠ 2) :
    factorPair f N = (none, some errNotTwoFactors) := by
  simp [factorPair, hf]

theorem length_two {α : Type} (l : List α) (h : l.length = 2) : ∃ a b, l = [a, b] := by
  match l, h with
  | [a, b], _ => exact ⟨a, b, rfl⟩

/-- The three ways the first part of `submitAnswer` can go. -/
theorem buildSubmitRequest_cases {σ : Type} (env : Env σ) (r : RequestResponse) :
    (SetString r.Challenge.Challenge = none ∧
      buildSubmitRequest env r =
        ((none, some (Error.wrapped ErrInvalidChallenge r.Challenge.Challenge)), [])) ∨
    (∃ N, SetString r.Challenge.Challenge = some N ∧ (env.factors N).length ≠ 2 ∧
      buildSubmitRequest env r = ((none, some errNotTwoFactors), [Event.factored N])) ∨
    (∃ N a b, SetString r.Challenge.Challenge = some N ∧ env.factors N = [a, b] ∧
      buildSubmitRequest env r =
        ((some { Challenge := { RequestID := r.Challenge.RequestID, Challenge := "" }
                 Answer := [bigString (min a b), bigString (max a b)]
                 RequestTime := r.RequestTime }, none), [Event.factored N])) := by
  cases hN : SetString r.Challenge.Challenge with
  | none => exact Or.inl ⟨rfl, by simp [buildSubmitRequest, hN]⟩
  | some N =>
    by_cases hl : (env.factors N).length = 2
    · obtain ⟨a, b, hab⟩ := length_two _ hl
      refine Or.inr (Or.inr ⟨N, a, b, rfl, hab, ?_⟩)
      simp [buildSubmitRequest, hN, factorPair_two env.factors N a b hab]
    · refine Or.inr (Or.inl ⟨N, rfl, hl, ?_⟩)
      simp [buildSubmitRequest, hN, factorPair_not_two env.factors N hl]

/-! ## Status mapping -/

theorem requestChallenge_events {σ : Type} (env : Env σ) (cp : ChallengeParams) (s : σ)
    (req : Request) (resp : Response)
    (h : Event.exchange req (.ok resp) ∈ (requestChallenge env cp s).events) :
    (requestChallenge env cp s).ret = challengeFromResponse env resp := by
  cases hq : env.newRequest "GET" (cp.BaseUrl ++ cp.RequestPath) none with
  | err e => simp [requestChallenge, hq] at h
  | ok q =>
    cases hr : env.roundTrip cp.Client s (setHost (headerAdd q "User-Agent" cp.UserAgent) cp.Host) with
    | mk reply s' =>
      cases reply with
      | err e => simp [requestChallenge, hq, hr] at h
      | ok resp' =>
        simp [requestChallenge, hq, hr] at h ⊢
        rw [h.2]

theorem buildSubmitRequest_events {σ : Type} (env : Env σ) (r : RequestResponse)
    (q : Request) (reply : Res Response) :
    Event.exchange q reply ∉ (buildSubmitRequest env r).2 := by
  cases hN : SetString r.Challenge.Challenge with
  | none => simp [buildSubmitRequest, hN]
  | some N =>
    cases hf : factorPair env.factors N with
    | mk pr e =>
      cases pr with
      | none => simp [buildSubmitRequest, hN, hf]
      | some pq => simp [buildSubmitRequest, hN, hf]

theorem submitAnswer_events {σ : Type} (env : Env σ) (cp : ChallengeParams)
    (r : RequestResponse) (s : σ) (req : Request) (resp : Response)
    (h : Event.exchange req (.ok resp) ∈ (submitAnswer env cp r s).events) :
    (submitAnswer env cp r s).ret = tokenFromResponse env resp := by
  cases hb : buildSubmitRequest env r with
  | mk res evs =>
    have hev : ∀ q reply, Event.exchange q reply ∉ evs := by
      intro q reply
      have := buildSubmitRequest_events env r q reply
      rwa [hb] at this
    obtain ⟨sr, e⟩ := res
    cases sr with
    | none => 
      simp [submitAnswer, hb] at h
      exact absurd h (hev _ _)
    | some sr =>
      cases hm : env.marshal sr with
      | err e' => 
        simp [submitAnswer, hb, hm] at h
        exact absurd h (hev _ _)
      | ok body =>
        cases hq : env.newRequest "POST" (cp.BaseUrl ++ cp.SubmitPath) (some body) with
        | err e' => 
          simp [submitAnswer, hb, hm, hq] at h
          exact absurd h (hev _ _)
        | ok q =>
          cases hr : env.roundTrip cp.Client s (outgoing cp q) with
          | mk reply s' =>
            cases reply with
            | err e' => 
              simp [submitAnswer, hb, hm, hq, hr] at h
              exact absurd h (hev _ _)
            | ok resp' =>
              simp [submitAnswer, hb, hm, hq, hr] at h ⊢
              rcases h with h | h
              · exact absurd h (hev _ _)
              · rw [h.2]

/-- C5: when the response of the challenge endpoint, or of the submit endpoint,
has status 429, then whatever its body `requestChallenge` returns
`(nil, ErrTooManyRequests)` and `submitAnswer` returns `("", ErrTooManyRequests)`:
neither an `HTTPStatusError` nor a success. -/
theorem status_429_is_ErrTooManyRequests {σ : Type} (env : Env σ) (cp : ChallengeParams)
    (r : RequestResponse) (s : σ) (req : Request) (resp : Response)
    (h429 : resp.StatusCode = 429) :
    (Event.exchange req (.ok resp) ∈ (requestChallenge env cp s).events →
      (requestChallenge env cp s).ret = (none, some ErrTooManyRequests)) ∧
    (Event.exchange req (.ok resp) ∈ (submitAnswer env cp r s).events →
      (submitAnswer env cp r s).ret = ("", some ErrTooManyRequests)) := by
  constructor
  · intro h
    rw [requestChallenge_events env cp s req resp h]
    simp [challengeFromResponse, h429]
  · intro h
    rw [submitAnswer_events env cp r s req resp h]
    simp [tokenFromResponse, h429]

theorem status_429_is_ErrTooManyRequests_witness :
    (requestChallenge (mockEnv "15" "abc" 5 mockFactors) mockParams 0).ret
        = (none, some ErrTooManyRequests) ∧
      (submitAnswer (mockEnv "15" "abc" 5 mockFactors) mockParams (mockIssue "15") 0).ret
        = ("", some ErrTooManyRequests) :=
  ⟨(status_429_is_ErrTooManyRequests (mockEnv "15" "abc" 5 mockFactors) mockParams (mockIssue "15") 0
      { Method := "GET", URL := "http://127.0.0.1:55000/request_challenge",
        Header := [("User-Agent", "POW client")], Host := "", Body := none }
      { StatusCode := 429, Body := [] } rfl).1 (by decide),
   (status_429_is_ErrTooManyRequests (mockEnv "15" "abc" 5 mockFactors) mockParams (mockIssue "15") 0
      { Method := "POST", URL := "http://127.0.0.1:55000/submit_answer",
        Header := [("Content-Type", "application/json"), ("User-Agent", "POW client")],
        Host := "", Body := some [3] }
      { StatusCode := 429, Body := [] } rfl).2 (by decide)⟩

/-- C6: when the response of the challenge endpoint, or of the submit endpoint,
has a status `c` that is neither 200 nor 429 and the body `b`, the operation
returns the `HTTPStatusError` with `Code = c` and `Body` the first
`min (len b) 2048` bytes of `b`, which are at most 2048 bytes; and
`bodySnippet b n` is the first `n` bytes of `b`, at most `n` of them, for
`n > 0` and the first 2048 bytes for `n ≤ 0`. -/
theorem status_other_is_HTTPStatusError {σ : Type} (env : Env σ) (cp : ChallengeParams)
    (r : RequestResponse) (s : σ) (req : Request) (resp : Response)
    (h200 : resp.StatusCode ≠ 200) (h429 : resp.StatusCode ≠ 429) :
    (Event.exchange req (.ok resp) ∈ (requestChallenge env cp s).events →
      (requestChallenge env cp s).ret =
        (none, some (Error.HTTPStatusError resp.StatusCode
          (resp.Body.take (min resp.Body.length 2048))))) ∧
    (Event.exchange req (.ok resp) ∈ (submitAnswer env cp r s).events →
      (submitAnswer env cp r s).ret =
        ("", some (Error.HTTPStatusError resp.StatusCode
          (resp.Body.take (min resp.Body.length 2048))))) ∧
    (resp.Body.take (min resp.Body.length 2048)).length ≤ 2048 ∧
    (∀ (b : Bytes) (n : Int), 0 < n →
      bodySnippet b n = b.take n.toNat ∧ ((bodySnippet b n).length : Int) ≤ n) ∧
    (∀ (b : Bytes) (n : Int), n ≤ 0 →
      bodySnippet b n = b.take 2048 ∧ (bodySnippet b n).length ≤ 2048) := by
  have hsnip : bodySnippet resp.Body 2048 = resp.Body.take (min resp.Body.length 2048) := by
    simp [bodySnippet, readAllLimit, List.take_eq_take, Nat.min_comm]
  refine ⟨?_, ?_, ?_, ?_, ?_⟩
  · intro h
    rw [requestChallenge_events env cp s req resp h]
    simp [challengeFromResponse, h200, h429, hsnip]
  · intro h
    rw [submitAnswer_events env cp r s req resp h]
    simp [tokenFromResponse, h200, h429, hsnip]
  · simp
  · intro b n hn
    have h1 : ¬ n ≤ 0 := not_le.mpr hn
    refine ⟨by simp [bodySnippet, readAllLimit, h1], ?_⟩
    simp only [bodySnippet, readAllLimit, h1, if_false, List.length_take]
    omega
  · intro b n hn
    simp [bodySnippet, readAllLimit, hn]

theorem status_other_is_HTTPStatusError_witness :
    ((503 : Int) ≠ 200 ∧ (503 : Int) ≠ 429) ∧
      (requestChallenge (mockStatusEnv 503 [111, 111, 112, 115] mockFactors) mockParams 0).ret
        = (none, some (Error.HTTPStatusError 503 [111, 111, 112, 115])) ∧
      (submitAnswer (mockStatusEnv 503 [111, 111, 112, 115] mockFactors) mockParams
          (mockIssue "15") 0).ret
        = ("", some (Error.HTTPStatusError 503 [111, 111, 112, 115])) :=
  ⟨⟨by decide, by decide⟩,
   (status_other_is_HTTPStatusError (mockStatusEnv 503 [111, 111, 112, 115] mockFactors) mockParams
      (mockIssue "15") 0
      { Method := "GET", URL := "http://127.0.0.1:55000/request_challenge",
        Header := [("User-Agent", "POW client")], Host := "", Body := none }
      { StatusCode := 503, Body := [111, 111, 112, 115] } (by decide) (by decide)).1
      (by decide),
   (status_other_is_HTTPStatusError (mockStatusEnv 503 [111, 111, 112, 115] mockFactors) mockParams
      (mockIssue "15") 0
      { Method := "POST", URL := "http://127.0.0.1:55000/submit_answer",
        Header := [("Content-Type", "application/json"), ("User-Agent", "POW client")],
        Host := "", Body := some [3] }
      { StatusCode := 503, Body := [111, 111, 112, 115] } (by decide) (by decide)).2.1
      (by decide)⟩

/-! ## Tokens -/

theorem tokenFromResponse_ok {σ : Type} (env : Env σ) (resp : Response) (t : String)
    (h : tokenFromResponse env resp = (t, none)) :
    t ≠ "" ∧ resp.StatusCode = 200 ∧ env.decodeSubmitResponse resp.Body = .ok ⟨t⟩ := by
  unfold tokenFromResponse at h
  split at h
  · split at h <;> simp at h
  · rename_i h200
    simp only [ne_eq, not_not] at h200
    split at h
    · simp at h
    · rename_i sr hd
      split at h
      · simp at h
      · rename_i hne
        simp only [Prod.mk.injEq, and_true] at h
        subst h
        exact ⟨hne, h200, hd⟩

/-- A run of `submitAnswer` that returns a nil error ends with the exchange
whose response it read the token from. -/
theorem submitAnswer_ok {σ : Type} (env : Env σ) (cp : ChallengeParams)
    (r : RequestResponse) (s : σ) (t : String)
    (h : (submitAnswer env cp r s).ret = (t, none)) :
    ∃ req resp, (submitAnswer env cp r s).events.getLast? = some (Event.exchange req (.ok resp))
      ∧ tokenFromResponse env resp = (t, none) := by
  rcases buildSubmitRequest_cases env r with ⟨-, hb⟩ | ⟨N, -, -, hb⟩ | ⟨N, a, b, -, -, hb⟩
  · simp [submitAnswer, hb] at h
  · simp [submitAnswer, hb] at h
  · revert h
    simp only [submitAnswer, hb]
    generalize ({ Challenge := { RequestID := r.Challenge.RequestID, Challenge := "" }
                  Answer := [bigString (min a b), bigString (max a b)]
                  RequestTime := r.RequestTime } : SubmitRequest) = sr
    intro h
    cases hm : env.marshal sr with
    | err e' => simp [hm] at h
    | ok body =>
      cases hq : env.newRequest "POST" (cp.BaseUrl ++ cp.SubmitPath) (some body) with
      | err e' => simp [hm, hq] at h
      | ok q =>
        cases hr : env.roundTrip cp.Client s (outgoing cp q) with
        | mk reply s' =>
          cases reply with
          | err e' => simp [hm, hq, hr] at h
          | ok resp' =>
            simp only [hm, hq, hr] at h ⊢
            exact ⟨outgoing cp q, resp', by simp, h⟩

/-- A run of `RetToken` that returns a nil error ran `submitAnswer` on the
challenge it fetched and returns what that returned. -/
theorem RetToken_ok {σ : Type} (env : Env σ) (gp : GetTokenParams) (s : σ) (t : String)
    (h : (RetToken env gp s).ret = (t, none)) :
    ∃ cr s1 evs, (submitAnswer env (buildChallengeParams gp) cr s1).ret = (t, none) ∧
      (RetToken env gp s).events
        = evs ++ (submitAnswer env (buildChallengeParams gp) cr s1).events := by
  cases hc : requestChallenge env (buildChallengeParams gp) s with
  | mk ret s1 evs =>
    obtain ⟨cr, e⟩ := ret
    cases e with
    | some e => simp [RetToken, hc] at h
    | none =>
      cases cr with
      | none => simp [RetToken, hc] at h
      | some cr =>
        cases hs : submitAnswer env (buildChallengeParams gp) cr s1 with
        | mk ret2 s2 evs2 =>
          obtain ⟨tok, e2⟩ := ret2
          cases e2 with
          | some e2 => simp [RetToken, hc, hs] at h
          | none =>
            simp only [RetToken, hc, hs] at h ⊢
            exact ⟨cr, s1, evs, by rw [hs]; exact h, by rw [hs]⟩

/-- C7: a 200 response of the submit endpoint whose body decodes to an empty
token makes `submitAnswer` return `("", ErrEmptyToken)`; and a token that
`submitAnswer` or `RetToken` returns with a nil error is not empty and is the
token field decoded from the 200 response of the last exchange of the run. -/
theorem empty_token_is_ErrEmptyToken {σ : Type} (env : Env σ) (cp : ChallengeParams)
    (gp : GetTokenParams) (r : RequestResponse) (s : σ) :
    (∀ req resp, Event.exchange req (.ok resp) ∈ (submitAnswer env cp r s).events →
      resp.StatusCode = 200 → env.decodeSubmitResponse resp.Body = .ok { Token := "" } →
      (submitAnswer env cp r s).ret = ("", some ErrEmptyToken)) ∧
    (∀ t, (submitAnswer env cp r s).ret = (t, none) →
      t ≠ "" ∧ ∃ req resp,
        (submitAnswer env cp r s).events.getLast? = some (Event.exchange req (.ok resp)) ∧
        resp.StatusCode = 200 ∧ env.decodeSubmitResponse resp.Body = .ok { Token := t }) ∧
    (∀ t, (RetToken env gp s).ret = (t, none) →
      t ≠ "" ∧ ∃ req resp,
        (RetToken env gp s).events.getLast? = some (Event.exchange req (.ok resp)) ∧
        resp.StatusCode = 200 ∧ env.decodeSubmitResponse resp.Body = .ok { Token := t }) := by
  refine ⟨?_, ?_, ?_⟩
  · intro req resp hmem h200 hdec
    rw [submitAnswer_events env cp r s req resp hmem]
    simp [tokenFromResponse, h200, hdec]
  · intro t ht
    obtain ⟨req, resp, hlast, htok⟩ := submitAnswer_ok env cp r s t ht
    obtain ⟨hne, h200, hdec⟩ := tokenFromResponse_ok env resp t htok
    exact ⟨hne, req, resp, hlast, h200, hdec⟩
  · intro t ht
    obtain ⟨cr, s1, evs, hsub, hev⟩ := RetToken_ok env gp s t ht
    obtain ⟨req, resp, hlast, htok⟩ := submitAnswer_ok env _ cr s1 t hsub
    obtain ⟨hne, h200, hdec⟩ := tokenFromResponse_ok env resp t htok
    refine ⟨hne, req, resp, ?_, h200, hdec⟩
    rw [hev, List.getLast?_append, hlast]
    rfl

theorem empty_token_is_ErrEmptyToken_witness :
    (submitAnswer (mockEnv "15" "" 0 mockFactors) mockParams (mockIssue "15") 0).ret
        = ("", some ErrEmptyToken) ∧
      ("abc" ≠ "" ∧ ∃ req resp,
        (RetToken (mockEnv "15" "abc" 0 mockFactors) NewGetTokenParams 0).events.getLast?
          = some (Event.exchange req (.ok resp)) ∧
        resp.StatusCode = 200 ∧
        (mockEnv "15" "abc" 0 mockFactors).decodeSubmitResponse resp.Body
          = .ok { Token := "abc" }) :=
  ⟨(empty_token_is_ErrEmptyToken (mockEnv "15" "" 0 mockFactors) mockParams NewGetTokenParams
      (mockIssue "15") 0).1
      { Method := "POST", URL := "http://127.0.0.1:55000/submit_answer",
        Header := [("Content-Type", "application/json"), ("User-Agent", "POW client")],
        Host := "", Body := some [3] }
      { StatusCode := 200, Body := [2] } (by decide) rfl rfl,
   (empty_token_is_ErrEmptyToken (mockEnv "15" "abc" 0 mockFactors) mockParams NewGetTokenParams
      (mockIssue "15") 0).2.2 "abc" (by decide)⟩

/-! ## The answer -/

/-- Every exchange of `submitAnswer` carries the marshalled `SubmitRequest`
that `buildSubmitRequest` built. -/
theorem submitAnswer_sends_built {σ : Type} (env : Env σ) (cp : ChallengeParams)
    (r : RequestResponse) (s : σ) (req : Request) (reply : Res Response)
    (h : Event.exchange req reply ∈ (submitAnswer env cp r s).events) :
    ∃ sr body q, (buildSubmitRequest env r).1 = (some sr, none) ∧
      env.marshal sr = .ok body ∧
      env.newRequest "POST" (cp.BaseUrl ++ cp.SubmitPath) (some body) = .ok q ∧
      req = outgoing cp q := by
  rcases buildSubmitRequest_cases env r with ⟨-, hb⟩ | ⟨N, -, -, hb⟩ | ⟨N, a, b, -, -, hb⟩
  · simp [submitAnswer, hb] at h
  · simp [submitAnswer, hb] at h
  · revert h
    simp only [submitAnswer, hb]
    generalize ({ Challenge := { RequestID := r.Challenge.RequestID, Challenge := "" }
                  Answer := [bigString (min a b), bigString (max a b)]
                  RequestTime := r.RequestTime } : SubmitRequest) = sr
    intro h
    cases hm : env.marshal sr with
    | err e' => simp [hm] at h
    | ok body =>
      cases hq : env.newRequest "POST" (cp.BaseUrl ++ cp.SubmitPath) (some body) with
      | err e' => simp [hm, hq] at h
      | ok q =>
        cases hr : env.roundTrip cp.Client s (outgoing cp q) with
        | mk rep s' =>
          cases rep with
          | err e' =>
            simp [hm, hq, hr] at h
            exact ⟨sr, body, q, rfl, hm, hq, h.1⟩
          | ok resp' =>
            simp [hm, hq, hr] at h
            exact ⟨sr, body, q, rfl, hm, hq, h.1⟩

/-- C2: when the challenge of the fetched response parses to `N` and
`factors N` is the two-element list `[a, b]`, in either order, the
`SubmitRequest` that `submitAnswer` builds has exactly the answer
`[min(a,b).String(), max(a,b).String()]`, the request id of the challenge and
the request time of the response; and that is the request whose marshalled
form every exchange of `submitAnswer` carries. -/
theorem answer_is_ascending_pair {σ : Type} (env : Env σ) (cp : ChallengeParams)
    (r : RequestResponse) (s : σ) (N a b : Int)
    (hN : SetString r.Challenge.Challenge = some N) (hf : env.factors N = [a, b]) :
    (buildSubmitRequest env r).1 =
      (some { Challenge := { RequestID := r.Challenge.RequestID, Challenge := "" }
              Answer := [bigString (min a b), bigString (max a b)]
              RequestTime := r.RequestTime }, none) ∧
    (∀ req reply, Event.exchange req reply ∈ (submitAnswer env cp r s).events →
      ∃ body q,
        env.marshal { Challenge := { RequestID := r.Challenge.RequestID, Challenge := "" }
                      Answer := [bigString (min a b), bigString (max a b)]
                      RequestTime := r.RequestTime } = .ok body ∧
        env.newRequest "POST" (cp.BaseUrl ++ cp.SubmitPath) (some body) = .ok q ∧
        req = outgoing cp q) := by
  have hb : (buildSubmitRequest env r).1 =
      (some { Challenge := { RequestID := r.Challenge.RequestID, Challenge := "" }
              Answer := [bigString (min a b), bigString (max a b)]
              RequestTime := r.RequestTime }, none) := by
    rcases buildSubmitRequest_cases env r with ⟨h0, -⟩ | ⟨M, hM, hl, -⟩ | ⟨M, a', b', hM, hf', hb⟩
    · rw [hN] at h0; cases h0
    · rw [hN] at hM; cases hM
      rw [hf] at hl
      exact absurd rfl hl
    · rw [hN] at hM; cases hM
      rw [hf] at hf'
      cases hf'
      rw [hb]
  refine ⟨hb, ?_⟩
  intro req reply hmem
  obtain ⟨sr, body, q, hsr, hm, hq, hreq⟩ := submitAnswer_sends_built env cp r s req reply hmem
  rw [hb] at hsr
  cases hsr
  exact ⟨body, q, hm, hq, hreq⟩

theorem answer_is_ascending_pair_witness :
    (SetString "15" = some 15 ∧ mockFactors 15 = [5, 3]) ∧
    (buildSubmitRequest (mockEnv "15" "abc" 0 mockFactors) (mockIssue "15")).1 =
      (some { Challenge := { RequestID := "r1", Challenge := "" }
              Answer := ["3", "5"]
              RequestTime := 7 }, none) :=
  ⟨by decide,
   (answer_is_ascending_pair (mockEnv "15" "abc" 0 mockFactors) mockParams
      (mockIssue "15") 0 15 5 3 (by decide) rfl).1⟩

/-! ## Challenges that cannot be answered -/

/-- C8: a challenge string that `SetString` rejects, the empty string among
them, makes `submitAnswer` return the empty token and an error that wraps
`ErrInvalidChallenge`, with no call of `factors`, no request sent and the peer
untouched. -/
theorem invalid_challenge_is_ErrInvalidChallenge {σ : Type} (env : Env σ)
    (cp : ChallengeParams) (r : RequestResponse) (s : σ)
    (h : SetString r.Challenge.Challenge = none) :
    (submitAnswer env cp r s).ret.1 = "" ∧
    (∃ e, (submitAnswer env cp r s).ret.2 = some e ∧ errorsIs e ErrInvalidChallenge = true) ∧
    (submitAnswer env cp r s).ret
      = ("", some (Error.wrapped ErrInvalidChallenge r.Challenge.Challenge)) ∧
    (submitAnswer env cp r s).events = [] ∧
    (submitAnswer env cp r s).net = s ∧
    SetString "" = none := by
  rcases buildSubmitRequest_cases env r with ⟨-, hb⟩ | ⟨N, hN, -, -⟩ | ⟨N, a, b, hN, -, -⟩
  · refine ⟨by simp [submitAnswer, hb], ⟨_, by simp [submitAnswer, hb]; rfl, ?_⟩,
      by simp [submitAnswer, hb], by simp [submitAnswer, hb], by simp [submitAnswer, hb], by decide⟩
    simp [errorsIs, ErrInvalidChallenge]
  · rw [h] at hN; cases hN
  · rw [h] at hN; cases hN

theorem invalid_challenge_is_ErrInvalidChallenge_witness :
    (SetString "" = none ∧ SetString "12a" = none ∧ SetString "1_0" = none ∧
      SetString "-" = none) ∧
    (submitAnswer (mockEnv "0x0f" "abc" 0 mockFactors) mockParams (mockIssue "0x0f") 0).ret
      = ("", some (Error.wrapped ErrInvalidChallenge "0x0f")) ∧
    (submitAnswer (mockEnv "0x0f" "abc" 0 mockFactors) mockParams (mockIssue "0x0f") 0).events
      = [] :=
  ⟨by decide,
   (invalid_challenge_is_ErrInvalidChallenge (mockEnv "0x0f" "abc" 0 mockFactors) mockParams
      (mockIssue "0x0f") 0 (by decide)).2.2.1,
   (invalid_challenge_is_ErrInvalidChallenge (mockEnv "0x0f" "abc" 0 mockFactors) mockParams
      (mockIssue "0x0f") 0 (by decide)).2.2.2.1⟩

/-- C9: when the challenge parses to `N` and `factors N` is not a list of
length 2, `submitAnswer` returns the empty token and the non-nil error of
line 186, sends no request and leaves the peer untouched. -/
theorem not_two_factors_is_error {σ : Type} (env : Env σ) (cp : ChallengeParams)
    (r : RequestResponse) (s : σ) (N : Int)
    (hN : SetString r.Challenge.Challenge = some N)
    (hlen : (env.factors N).length ≠ 2) :
    (submitAnswer env cp r s).ret = ("", some errNotTwoFactors) ∧
    (submitAnswer env cp r s).events = [Event.factored N] ∧
    (∀ req reply, Event.exchange req reply ∉ (submitAnswer env cp r s).events) ∧
    (submitAnswer env cp r s).net = s := by
  rcases buildSubmitRequest_cases env r with ⟨h0, -⟩ | ⟨M, hM, -, hb⟩ | ⟨M, a, b, hM, hf, -⟩
  · rw [hN] at h0; cases h0
  · rw [hN] at hM; cases hM
    refine ⟨by simp [submitAnswer, hb], by simp [submitAnswer, hb], ?_, by simp [submitAnswer, hb]⟩
    intro req reply
    simp [submitAnswer, hb]
  · rw [hN] at hM; cases hM
    rw [hf] at hlen
    exact absurd rfl hlen

theorem not_two_factors_is_error_witness :
    (SetString "7" = some 7 ∧ (mockFactors 7).length ≠ 2 ∧
      SetString "30" = some 30 ∧ (mockFactors 30).length ≠ 2) ∧
    (submitAnswer (mockEnv "7" "abc" 0 mockFactors) mockParams (mockIssue "7") 0).ret
      = ("", some errNotTwoFactors) ∧
    (submitAnswer (mockEnv "30" "abc" 0 mockFactors) mockParams (mockIssue "30") 0).events
      = [Event.factored 30] :=
  ⟨by decide,
   (not_two_factors_is_error (mockEnv "7" "abc" 0 mockFactors) mockParams (mockIssue "7") 0 7
      (by decide) (by decide)).1,
   (not_two_factors_is_error (mockEnv "30" "abc" 0 mockFactors) mockParams (mockIssue "30") 0 30
      (by decide) (by decide)).2.1⟩

/-- C10, as the code has it: a challenge string whose value `N` is at most 1 is
not given an error of its own.  Whenever `factors N` is not a list of length 2,
`submitAnswer` returns the empty token and the same error of line 186 as for
any other such `N`, and sends no request; and whatever `factors` returns, the
only error of the solve step is that one. -/
theorem small_challenge_is_not_two_factors {σ : Type} (env : Env σ) (cp : ChallengeParams)
    (r : RequestResponse) (s : σ) (N : Int)
    (hN : SetString r.Challenge.Challenge = some N) (_hsmall : N ≤ 1) :
    ((buildSubmitRequest env r).1.2 = none ∨
      (buildSubmitRequest env r).1.2 = some errNotTwoFactors) ∧
    ((env.factors N).length ≠ 2 →
      (submitAnswer env cp r s).ret = ("", some errNotTwoFactors) ∧
      (∀ req reply, Event.exchange req reply ∉ (submitAnswer env cp r s).events)) := by
  constructor
  · rcases buildSubmitRequest_cases env r with ⟨h0, -⟩ | ⟨M, -, -, hb⟩ | ⟨M, a, b, -, -, hb⟩
    · rw [hN] at h0; cases h0
    · right; rw [hb]
    · left; rw [hb]
  · intro hlen
    rcases buildSubmitRequest_cases env r with ⟨h0, -⟩ | ⟨M, hM, -, hb⟩ | ⟨M, a, b, hM, hf, -⟩
    · rw [hN] at h0; cases h0
    · refine ⟨by simp [submitAnswer, hb], ?_⟩
      intro req reply
      simp [submitAnswer, hb]
    · rw [hN] at hM; cases hM
      rw [hf] at hlen
      exact absurd rfl hlen

theorem small_challenge_is_not_two_factors_witness :
    (SetString "-15" = some (-15) ∧ (-15 : Int) ≤ 1 ∧ (mockFactors (-15)).length ≠ 2) ∧
    (submitAnswer (mockEnv "-15" "abc" 0 mockFactors) mockParams (mockIssue "-15") 0).ret
      = ("", some errNotTwoFactors) :=
  ⟨by decide,
   ((small_challenge_is_not_two_factors (mockEnv "-15" "abc" 0 mockFactors) mockParams
      (mockIssue "-15") 0 (-15) (by decide) (by decide)).2 (by decide)).1⟩

/-- C10 fails as stated: for the challenges `1`, `0` and `-15`, for which the
factorizer returns no factor, the solve step ends in the very error it ends in
for the prime challenge `7`; and for the challenge `1`, whatever `factors`
returns, the solve step has no other error to give. -/
theorem small_challenge_counterexample :
    (SetString "1" = some 1 ∧ SetString "0" = some 0 ∧ SetString "-15" = some (-15)) ∧
    (submitAnswer (mockEnv "1" "abc" 0 mockFactors) mockParams (mockIssue "1") 0).ret
      = (submitAnswer (mockEnv "7" "abc" 0 mockFactors) mockParams (mockIssue "7") 0).ret ∧
    (submitAnswer (mockEnv "1" "abc" 0 mockFactors) mockParams (mockIssue "1") 0).ret
      = ("", some errNotTwoFactors) ∧
    (submitAnswer (mockEnv "0" "abc" 0 mockFactors) mockParams (mockIssue "0") 0).ret
      = ("", some errNotTwoFactors) ∧
    (submitAnswer (mockEnv "-15" "abc" 0 mockFactors) mockParams (mockIssue "-15") 0).ret
      = ("", some errNotTwoFactors) ∧
    (∀ f : Int → List Int,
      (factorPair f 1).2 = none ∨ (factorPair f 1).2 = some errNotTwoFactors) := by
  refine ⟨by decide, by decide, by decide, by decide, by decide, ?_⟩
  intro f
  by_cases hl : (f 1).length = 2
  · obtain ⟨a, b, hab⟩ := length_two _ hl
    left; rw [factorPair_two f 1 a b hab]
  · right; rw [factorPair_not_two f 1 hl]

/-! ## The retry loop -/

/-- Counting the calls changes neither how `getToken` ends nor the world it
leaves. -/
theorem getTokenWith_counted {ω : Type}
    (ret : GetTokenParams → ω → (String × Option Error) × ω)
    (u : String → String → String → String) (fastIp host port : String) (w : ω) (n : Nat) :
    (getTokenWith (counted ret) u fastIp host port (w, n)).outcome
      = (getTokenWith ret u fastIp host port w).outcome ∧
    (getTokenWith (counted ret) u fastIp host port (w, n)).world.1
      = (getTokenWith ret u fastIp host port w).world := by
  have hc : counted ret (getTokenParamsOf u fastIp host port)
      = fun x => ((ret (getTokenParamsOf u fastIp host port) x.1).1,
          ((ret (getTokenParamsOf u fastIp host port) x.1).2, x.2 + 1)) := rfl
  simp only [getTokenWith, hc]
  generalize ret (getTokenParamsOf u fastIp host port) = step
  cases h0 : step w with
  | mk r0 w1 =>
    obtain ⟨t0, e0⟩ := r0
    cases e0 with
    | none => simp [getTokenLoop, h0]
    | some e0 =>
      cases h1 : step w1 with
      | mk r1 w2 =>
        obtain ⟨t1, e1⟩ := r1
        cases e1 with
        | none => simp [getTokenLoop, h0, h1]
        | some e1 =>
          cases h2 : step w2 with
          | mk r2 w3 =>
            obtain ⟨t2, e2⟩ := r2
            cases e2 with
            | none => simp [getTokenLoop, h0, h1, h2]
            | some e2 => simp [getTokenLoop, h0, h1, h2]

/-- C4: whatever the calls of `RetToken` return, `getToken` makes at least one
and at most 3 of them; every call before the last one failed; when it returns,
it returns a nil error and the token of its last call, which succeeded; it
stops at the first call that succeeds; and when the first two calls fail with
`ErrTooManyRequests` and the third returns `(t, nil)` it returns `(t, nil)`
after exactly 3 calls.  The calls are counted by `counted`, which changes
neither the outcome nor the world. -/
theorem getToken_stops_at_first_success {ω : Type}
    (ret : GetTokenParams → ω → (String × Option Error) × ω)
    (u : String → String → String → String) (fastIp host port : String) (w : ω) :
    ((getTokenWith (counted ret) u fastIp host port (w, 0)).outcome
        = (getTokenWith ret u fastIp host port w).outcome ∧
      (getTokenWith (counted ret) u fastIp host port (w, 0)).world.1
        = (getTokenWith ret u fastIp host port w).world) ∧
    (1 ≤ (getTokenWith (counted ret) u fastIp host port (w, 0)).world.2 ∧
      (getTokenWith (counted ret) u fastIp host port (w, 0)).world.2 ≤ 3) ∧
    (getTokenWith (counted ret) u fastIp host port (w, 0)).world.1 =
      stateBefore (ret (getTokenParamsOf u fastIp host port))
        (getTokenWith (counted ret) u fastIp host port (w, 0)).world.2 w ∧
    (∀ j, j + 1 < (getTokenWith (counted ret) u fastIp host port (w, 0)).world.2 →
      (attempt (ret (getTokenParamsOf u fastIp host port)) w j).2 ≠ none) ∧
    (∀ t e, (getTokenWith (counted ret) u fastIp host port (w, 0)).outcome
        = Outcome.returned t e →
      e = none ∧
      attempt (ret (getTokenParamsOf u fastIp host port)) w
        ((getTokenWith (counted ret) u fastIp host port (w, 0)).world.2 - 1) = (t, none)) ∧
    (∀ j, j < 3 →
      (attempt (ret (getTokenParamsOf u fastIp host port)) w j).2 = none →
      (∀ i, i < j → (attempt (ret (getTokenParamsOf u fastIp host port)) w i).2 ≠ none) →
      (getTokenWith (counted ret) u fastIp host port (w, 0)).outcome
        = Outcome.returned (attempt (ret (getTokenParamsOf u fastIp host port)) w j).1 none ∧
      (getTokenWith (counted ret) u fastIp host port (w, 0)).world.2 = j + 1) ∧
    (∀ t,
      (attempt (ret (getTokenParamsOf u fastIp host port)) w 0).2 = some ErrTooManyRequests →
      (attempt (ret (getTokenParamsOf u fastIp host port)) w 1).2 = some ErrTooManyRequests →
      attempt (ret (getTokenParamsOf u fastIp host port)) w 2 = (t, none) →
      (getTokenWith (counted ret) u fastIp host port (w, 0)).outcome
        = Outcome.returned t none ∧
      (getTokenWith (counted ret) u fastIp host port (w, 0)).world.2 = 3) := by
  refine ⟨getTokenWith_counted ret u fastIp host port w 0, ?_⟩
  have hc : counted ret (getTokenParamsOf u fastIp host port)
      = fun x => ((ret (getTokenParamsOf u fastIp host port) x.1).1,
          ((ret (getTokenParamsOf u fastIp host port) x.1).2, x.2 + 1)) := rfl
  simp only [getTokenWith, hc]
  generalize ret (getTokenParamsOf u fastIp host port) = step
  cases h0 : step w with
  | mk r0 w1 =>
    obtain ⟨t0, e0⟩ := r0
    cases e0 with
    | none =>
      simp only [getTokenLoop, h0]
      refine ⟨by simp, by simp [stateBefore, h0], by simp, by simp [attempt, stateBefore, h0],
        ?_, ?_⟩
      · intro j hj hnone hbefore
        interval_cases j
        · simp [attempt, stateBefore, h0]
        · exact absurd (by simp [attempt, stateBefore, h0]) (hbefore 0 (by omega))
        · exact absurd (by simp [attempt, stateBefore, h0]) (hbefore 0 (by omega))
      · intro t ha
        simp [attempt, stateBefore, h0] at ha
    | some e0 =>
      cases h1 : step w1 with
      | mk r1 w2 =>
        obtain ⟨t1, e1⟩ := r1
        cases e1 with
        | none =>
          simp only [getTokenLoop, h0, h1]
          refine ⟨by simp, by simp [stateBefore, h0, h1], ?_,
            by simp [attempt, stateBefore, h0, h1], ?_, ?_⟩
          · intro j hj
            have : j = 0 := by simp at hj; omega
            subst this
            simp [attempt, stateBefore, h0]
          · intro j hj hnone hbefore
            interval_cases j
            · simp [attempt, stateBefore, h0] at hnone
            · simp [attempt, stateBefore, h0, h1]
            · exact absurd (by simp [attempt, stateBefore, h0, h1]) (hbefore 1 (by omega))
          · intro t _ ha
            simp [attempt, stateBefore, h0, h1] at ha
        | some e1 =>
          cases h2 : step w2 with
          | mk r2 w3 =>
            obtain ⟨t2, e2⟩ := r2
            cases e2 with
            | none =>
              simp only [getTokenLoop, h0, h1, h2]
              refine ⟨by simp, by simp [stateBefore, h0, h1, h2], ?_,
                by simp [attempt, stateBefore, h0, h1, h2], ?_, ?_⟩
              · intro j hj
                have : j = 0 ∨ j = 1 := by simp at hj; omega
                rcases this with rfl | rfl
                · simp [attempt, stateBefore, h0]
                · simp [attempt, stateBefore, h0, h1]
              · intro j hj hnone hbefore
                interval_cases j
                · simp [attempt, stateBefore, h0] at hnone
                · simp [attempt, stateBefore, h0, h1] at hnone
                · simp [attempt, stateBefore, h0, h1, h2]
              · intro t _ _ ha
                simp [attempt, stateBefore, h0, h1, h2] at ha
                simp [ha]
            | some e2 =>
              simp only [getTokenLoop, h0, h1, h2]
              refine ⟨by simp, by simp [stateBefore, h0, h1, h2], ?_, by simp, ?_, ?_⟩
              · intro j hj
                have : j = 0 ∨ j = 1 := by simp at hj; omega
                rcases this with rfl | rfl
                · simp [attempt, stateBefore, h0]
                · simp [attempt, stateBefore, h0, h1]
              · intro j hj hnone hbefore
                interval_cases j
                · simp [attempt, stateBefore, h0] at hnone
                · simp [attempt, stateBefore, h0, h1] at hnone
                · simp [attempt, stateBefore, h0, h1, h2] at hnone
              · intro t _ _ ha
                simp [attempt, stateBefore, h0, h1, h2] at ha

theorem getToken_stops_at_first_success_witness :
    ((attempt (retTokenCall (mockEnv "15" "abc" 2 mockFactors)
          (getTokenParamsOf mockUrlString "api.leo.moe" "api.leo.moe" "443")) (0, []) 0).2
        = some ErrTooManyRequests ∧
      (attempt (retTokenCall (mockEnv "15" "abc" 2 mockFactors)
          (getTokenParamsOf mockUrlString "api.leo.moe" "api.leo.moe" "443")) (0, []) 1).2
        = some ErrTooManyRequests ∧
      attempt (retTokenCall (mockEnv "15" "abc" 2 mockFactors)
          (getTokenParamsOf mockUrlString "api.leo.moe" "api.leo.moe" "443")) (0, []) 2
        = ("abc", none)) ∧
    (getTokenWith (counted (retTokenCall (mockEnv "15" "abc" 2 mockFactors))) mockUrlString
        "api.leo.moe" "api.leo.moe" "443" ((0, []), 0)).outcome
      = Outcome.returned "abc" none ∧
    (getTokenWith (counted (retTokenCall (mockEnv "15" "abc" 2 mockFactors))) mockUrlString
        "api.leo.moe" "api.leo.moe" "443" ((0, []), 0)).world.2 = 3 :=
  ⟨by decide,
   (getToken_stops_at_first_success (retTokenCall (mockEnv "15" "abc" 2 mockFactors)) mockUrlString
      "api.leo.moe" "api.leo.moe" "443" (0, [])).2.2.2.2.2.2 "abc"
      (by decide) (by decide) (by decide)⟩

/-- C3, as the code has it: when each of the 3 calls of `RetToken` fails,
`getToken` makes exactly those 3 calls and then ends the process with
`os.Exit(1)`; it returns nothing to its caller, so not `("", nil)` either. -/
theorem getToken_exhausted_exits {ω : Type}
    (ret : GetTokenParams → ω → (String × Option Error) × ω)
    (u : String → String → String → String) (fastIp host port : String) (w : ω)
    (hfail : ∀ j, j < 3 →
      (attempt (ret (getTokenParamsOf u fastIp host port)) w j).2 ≠ none) :
    (getTokenWith ret u fastIp host port w).outcome = Outcome.exited 1 ∧
    (∀ t e, (getTokenWith ret u fastIp host port w).outcome ≠ Outcome.returned t e) ∧
    (getTokenWith ret u fastIp host port w).world
      = stateBefore (ret (getTokenParamsOf u fastIp host port)) 3 w ∧
    (getTokenWith (counted ret) u fastIp host port (w, 0)).outcome = Outcome.exited 1 ∧
    (getTokenWith (counted ret) u fastIp host port (w, 0)).world.2 = 3 := by
  have hc : counted ret (getTokenParamsOf u fastIp host port)
      = fun x => ((ret (getTokenParamsOf u fastIp host port) x.1).1,
          ((ret (getTokenParamsOf u fastIp host port) x.1).2, x.2 + 1)) := rfl
  simp only [getTokenWith, hc]
  revert hfail
  generalize ret (getTokenParamsOf u fastIp host port) = step
  intro hfail
  have f0 := hfail 0 (by omega)
  have f1 := hfail 1 (by omega)
  have f2 := hfail 2 (by omega)
  cases h0 : step w with
  | mk r0 w1 =>
    obtain ⟨t0, e0⟩ := r0
    cases e0 with
    | none => simp [attempt, stateBefore, h0] at f0
    | some e0 =>
      cases h1 : step w1 with
      | mk r1 w2 =>
        obtain ⟨t1, e1⟩ := r1
        cases e1 with
        | none => simp [attempt, stateBefore, h0, h1] at f1
        | some e1 =>
          cases h2 : step w2 with
          | mk r2 w3 =>
            obtain ⟨t2, e2⟩ := r2
            cases e2 with
            | none => simp [attempt, stateBefore, h0, h1, h2] at f2
            | some e2 => simp [getTokenLoop, stateBefore, h0, h1, h2]

theorem getToken_exhausted_exits_witness :
    (∀ j, j < 3 →
      (attempt (retTokenCall (mockEnv "15" "" 0 mockFactors)
        (getTokenParamsOf mockUrlString "api.leo.moe" "api.leo.moe" "443")) (0, []) j).2
        ≠ none) ∧
    (getTokenWith (retTokenCall (mockEnv "15" "" 0 mockFactors)) mockUrlString
        "api.leo.moe" "api.leo.moe" "443" (0, [])).outcome = Outcome.exited 1 :=
  ⟨by decide,
   (getToken_exhausted_exits (retTokenCall (mockEnv "15" "" 0 mockFactors)) mockUrlString
      "api.leo.moe" "api.leo.moe" "443" (0, []) (by decide)).1⟩

/-- C3 fails as stated: against a peer that always answers with an empty token
every call of `RetToken` returns `ErrEmptyToken`, and `getToken` then ends the
process with `os.Exit(1)` instead of returning an error to its caller; the
only line it prints is the fixed message. -/
theorem getToken_exhausted_counterexample :
    attempt (retTokenCall (mockEnv "15" "" 0 mockFactors)
        (getTokenParamsOf mockUrlString "api.leo.moe" "api.leo.moe" "443")) (0, []) 0
      = ("", some ErrEmptyToken) ∧
    attempt (retTokenCall (mockEnv "15" "" 0 mockFactors)
        (getTokenParamsOf mockUrlString "api.leo.moe" "api.leo.moe" "443")) (0, []) 1
      = ("", some ErrEmptyToken) ∧
    attempt (retTokenCall (mockEnv "15" "" 0 mockFactors)
        (getTokenParamsOf mockUrlString "api.leo.moe" "api.leo.moe" "443")) (0, []) 2
      = ("", some ErrEmptyToken) ∧
    (getToken (mockEnv "15" "" 0 mockFactors) mockUrlString
        "api.leo.moe" "api.leo.moe" "443" (0, [])).outcome = Outcome.exited 1 ∧
    (getToken (mockEnv "15" "" 0 mockFactors) mockUrlString
        "api.leo.moe" "api.leo.moe" "443" (0, [])).stdout
      = [Printed.text "RetToken failed 3 times, exit"] ∧
    (getToken (mockEnv "15" "" 0 mockFactors) mockUrlString
        "api.leo.moe" "api.leo.moe" "443" (0, [])).outcome
      ≠ Outcome.returned "" (some ErrEmptyToken) := by
  decide

/-! ## The factorizer of the specification -/

theorem trialDivision_least (n d : Nat) (hd : d ∣ n) :
    ∀ (fuel k : Nat), k ≤ d → (∀ j, k ≤ j → j < d → ¬ j ∣ n) → d - k < fuel →
      trialDivision n fuel k = d := by
  intro fuel
  induction fuel with
  | zero => intro k _ _ hlt; omega
  | succ fuel ih =>
    intro k hk hleast hlt
    unfold trialDivision
    by_cases hmod : n % k = 0
    · have hkn : k ∣ n := Nat.dvd_of_mod_eq_zero hmod
      have : ¬ k < d := fun hkd => hleast k le_rfl hkd hkn
      simp only [hmod, if_true]
      omega
    · have hne : k ≠ d := by
        rintro rfl
        exact hmod (Nat.mod_eq_zero_of_dvd hd)
      simp only [hmod, if_false]
      apply ih (k + 1) (by omega)
      · intro j hj hjd
        exact hleast j (by omega) hjd
      · omega

theorem smallestDivisor_prime (p : Nat) (hp : p.Prime) : smallestDivisor p = p := by
  apply trialDivision_least p p dvd_rfl p 2 hp.two_le
  · intro j hj hjp hdvd
    rcases (Nat.dvd_prime hp).mp hdvd with h | h <;> omega
  · have := hp.two_le
    omega

theorem isPrime_of_prime (p : Nat) (hp : p.Prime) : isPrime p = true := by
  simp [isPrime, hp.two_le, smallestDivisor_prime p hp]

theorem smallestDivisor_semiprime (p q : Nat) (hp : p.Prime) (hq : q.Prime) (hpq : p < q) :
    smallestDivisor (p * q) = p := by
  have hp2 := hp.two_le
  have hq2 := hq.two_le
  apply trialDivision_least (p * q) p (dvd_mul_right p q) (p * q) 2 hp2
  · intro j hj hjp hdvd
    obtain ⟨r, hr, hrj⟩ := Nat.exists_prime_and_dvd (show j ≠ 1 by omega)
    have hrle : r ≤ j := Nat.le_of_dvd (by omega) hrj
    rcases (Nat.Prime.dvd_mul hr).mp (dvd_trans hrj hdvd) with h | h
    · have := (Nat.prime_dvd_prime_iff_eq hr hp).mp h
      omega
    · have := (Nat.prime_dvd_prime_iff_eq hr hq).mp h
      omega
  · have : p * 1 ≤ p * q := Nat.mul_le_mul_left p (by omega)
    omega

theorem factor_semiprime (p q : Nat) (hp : p.Prime) (hq : q.Prime) (hpq : p < q) :
    factor ((p : Int) * (q : Int)) = .ok ((p : Int), (q : Int)) := by
  have hp2 := hp.two_le
  have hq2 := hq.two_le
  have hn : ((p : Int) * (q : Int)).toNat = p * q := by
    rw [← Nat.cast_mul, Int.toNat_natCast]
  have hbig : ¬ ((p : Int) * (q : Int) ≤ 1) := by
    rw [← Nat.cast_mul]
    have : 2 * 2 ≤ p * q := Nat.mul_le_mul hp2 hq2
    omega
  have hd := smallestDivisor_semiprime p q hp hq hpq
  have hne : p ≠ p * q := by
    intro h
    have : p * 2 ≤ p * q := Nat.mul_le_mul_left p hq2
    omega
  have hdiv : p * q / p = q := Nat.mul_div_cancel_left q (by omega)
  simp [factor, hbig, hn, hd, hne, hdiv, isPrime_of_prime p hp, isPrime_of_prime q hq,
    min_eq_left (le_of_lt hpq), max_eq_right (le_of_lt hpq)]

theorem smallestDivisor_eq_minFac (n : Nat) (hn : 2 ≤ n) : smallestDivisor n = n.minFac := by
  apply trialDivision_least n n.minFac (Nat.minFac_dvd n) n 2
    (Nat.minFac_prime (by omega)).two_le
  · intro j hj hlt hdvd
    have := Nat.minFac_le_of_dvd hj hdvd
    omega
  · have := Nat.minFac_le (show 0 < n by omega)
    omega

theorem isPrime_iff (n : Nat) : isPrime n = true ↔ n.Prime := by
  constructor
  · intro h
    simp only [isPrime, Bool.and_eq_true, decide_eq_true_eq] at h
    obtain ⟨h2, hs⟩ := h
    rw [smallestDivisor_eq_minFac n h2] at hs
    exact Nat.prime_def_minFac.mpr ⟨h2, hs⟩
  · exact isPrime_of_prime n

/-- The factorizer of the specification rejects `N ≤ 1` as invalid input. -/
theorem factor_of_le_one (N : Int) (h : N ≤ 1) : factor N = .error FactorError.InvalidInput := by
  simp [factor, h]

/-- A pair the factorizer of the specification returns consists of two primes,
in ascending order, whose product is the input. -/
theorem factor_sound (N low high : Int) (h : factor N = .ok (low, high)) :
    ∃ p q : Nat, p.Prime ∧ q.Prime ∧ N = (p : Int) * (q : Int) ∧
      low = (min p q : Nat) ∧ high = (max p q : Nat) := by
  by_cases h1 : N ≤ 1
  · simp [factor, h1] at h
  by_cases h2 : smallestDivisor N.toNat = N.toNat
  · simp [factor, h1, h2] at h
  by_cases h3 : (isPrime (smallestDivisor N.toNat) &&
      isPrime (N.toNat / smallestDivisor N.toNat)) = true
  swap
  · simp only [factor, h1, h2, if_false] at h
    rw [if_neg h3] at h
    cases h
  simp only [factor, h1, h2, if_false] at h
  rw [if_pos h3] at h
  simp only [Bool.and_eq_true] at h3
  simp only [Except.ok.injEq, Prod.mk.injEq] at h
  have hn : 2 ≤ N.toNat := by omega
  refine ⟨smallestDivisor N.toNat, N.toNat / smallestDivisor N.toNat,
    (isPrime_iff _).mp h3.1, (isPrime_iff _).mp h3.2, ?_, h.1.symm, h.2.symm⟩
  have hdvd : smallestDivisor N.toNat ∣ N.toNat := by
    rw [smallestDivisor_eq_minFac _ hn]
    exact Nat.minFac_dvd _
  have hmul := Nat.mul_div_cancel' hdvd
  have hN : N = (N.toNat : Int) := by omega
  rw [← Nat.cast_mul, hmul]
  exact hN

/-- The factorizer of the specification fails with `NotSemiprime` on every
`N > 1` that is not a product of two primes: on a prime, on a product of three
or more primes. -/
theorem factor_not_semiprime (N : Int) (h1 : 1 < N)
    (h : ¬ ∃ p q : Nat, p.Prime ∧ q.Prime ∧ N = (p : Int) * (q : Int)) :
    factor N = .error FactorError.NotSemiprime := by
  cases hf : factor N with
  | ok pr =>
    obtain ⟨low, high⟩ := pr
    obtain ⟨p, q, hp, hq, hN, -, -⟩ := factor_sound N low high hf
    exact absurd ⟨p, q, hp, hq, hN⟩ h
  | error e =>
    cases e with
    | NotSemiprime => rfl
    | InvalidInput =>
      have h1' : ¬ N ≤ 1 := by omega
      by_cases h2 : smallestDivisor N.toNat = N.toNat
      · simp [factor, h1', h2] at hf
      · simp only [factor, h1', h2, if_false] at hf
        split_ifs at hf
        exact hf.symm

theorem factor_of_prime (p : Nat) (hp : p.Prime) :
    factor (p : Int) = .error FactorError.NotSemiprime := by
  apply factor_not_semiprime
  · have := hp.two_le
    omega
  · rintro ⟨a, b, ha, hb, hab⟩
    have hab' : p = a * b := by exact_mod_cast hab
    have := ha.two_le
    have := hb.two_le
    rcases (Nat.dvd_prime hp).mp ⟨b, hab'⟩ with h | h
    · omega
    · subst h
      have : a * 2 ≤ a * b := Nat.mul_le_mul_left a (by omega)
      omega

theorem factor_of_three (a b c : Nat) (ha : 2 ≤ a) (hb : 2 ≤ b) (hc : 2 ≤ c) :
    factor ((a : Int) * (b : Int) * (c : Int)) = .error FactorError.NotSemiprime := by
  apply factor_not_semiprime
  · have h1 : 2 * 2 ≤ a * b := Nat.mul_le_mul ha hb
    have h2 : 2 * 2 * 2 ≤ a * b * c := Nat.mul_le_mul h1 hc
    have : ((a * b * c : Nat) : Int) = (a : Int) * b * c := by push_cast; ring
    omega
  · rintro ⟨p, q, hp, hq, hN⟩
    have hN' : a * b * c = p * q := by exact_mod_cast hN
    have hlen := congrArg (fun n => (Nat.primeFactorsList n).length) hN'
    have hpos : ∀ x, 2 ≤ x → 1 ≤ (Nat.primeFactorsList x).length := by
      intro x hx
      have : Nat.primeFactorsList x ≠ [] := by
        intro h0
        rcases (Nat.primeFactorsList_eq_nil x).mp h0 with h | h <;> omega
      exact List.length_pos.mpr this
    have hab : a * b ≠ 0 := Nat.mul_ne_zero (by omega) (by omega)
    simp only [
      (Nat.perm_primeFactorsList_mul hab (by omega : c ≠ 0)).length_eq,
      (Nat.perm_primeFactorsList_mul (by omega : a ≠ 0) (by omega : b ≠ 0)).length_eq,
      (Nat.perm_primeFactorsList_mul hp.ne_zero hq.ne_zero).length_eq,
      Nat.primeFactorsList_prime hp, Nat.primeFactorsList_prime hq,
      List.length_append, List.length_singleton] at hlen
    have := hpos a ha
    have := hpos b hb
    have := hpos c hc
    omega

theorem factors_semiprime (p q : Nat) (hp : p.Prime) (hq : q.Prime) (hpq : p < q) :
    factors ((p : Int) * (q : Int)) = [(p : Int), (q : Int)] := by
  simp [factors, factor_semiprime p q hp hq hpq]

/-- C1: for distinct primes `p` and `q`, the pair the client computes for
`N = p * q`, the factorizer of the specification followed by the length check
and the swap of `submitAnswer`, is `(min p q, max p q)`, and the product of
its two components is `N`. -/
theorem factor_pair_of_semiprime (p q : Nat) (hp : p.Prime) (hq : q.Prime) (hpq : p ≠ q) :
    factorPair factors ((p : Int) * (q : Int))
      = (some (min (p : Int) (q : Int), max (p : Int) (q : Int)), none) ∧
    (∃ low high, (factorPair factors ((p : Int) * (q : Int))).1 = some (low, high) ∧
      low ≤ high ∧ low * high = (p : Int) * (q : Int)) ∧
    factor ((p : Int) * (q : Int)) = .ok (min (p : Int) (q : Int), max (p : Int) (q : Int)) := by
  have key : factorPair factors ((p : Int) * (q : Int))
      = (some (min (p : Int) (q : Int), max (p : Int) (q : Int)), none) ∧
      factor ((p : Int) * (q : Int))
        = .ok (min (p : Int) (q : Int), max (p : Int) (q : Int)) := by
    rcases Nat.lt_or_gt_of_ne hpq with h | h
    · refine ⟨factorPair_two factors _ _ _ (factors_semiprime p q hp hq h), ?_⟩
      have hle : (p : Int) ≤ (q : Int) := by exact_mod_cast le_of_lt h
      rw [factor_semiprime p q hp hq h, min_eq_left hle, max_eq_right hle]
    · have hf := factors_semiprime q p hq hp h
      rw [mul_comm] at hf
      have hle : (q : Int) ≤ (p : Int) := by exact_mod_cast le_of_lt h
      refine ⟨?_, ?_⟩
      · rw [factorPair_two factors _ _ _ hf, min_comm, max_comm]
      · rw [mul_comm, factor_semiprime q p hq hp h, min_eq_right hle, max_eq_left hle]
  refine ⟨key.1, ⟨_, _, by rw [key.1], min_le_max, ?_⟩, key.2⟩
  exact min_mul_max (p : Int) (q : Int)

theorem factor_pair_of_semiprime_witness :
    (Nat.Prime 5 ∧ Nat.Prime 3 ∧ 5 ≠ 3) ∧
    factorPair factors ((5 : Nat) * (3 : Nat)) = (some (3, 5), none) :=
  ⟨⟨by norm_num, by norm_num, by decide⟩,
   (factor_pair_of_semiprime 5 3 (by norm_num) (by norm_num) (by decide)).1⟩

end Powclient
